import Mathlib

/-!
Shallow embedding of the DexScreener monitor bot (`dexscreener_bot.py`).

Python dict `.get` calls are modelled with `Option`; Python truthiness of
strings (`not chain_id`) is modelled by `truthy`; Python `set`s are modelled
as duplicate-free insertion lists; Python dicts used as maps are modelled as
association lists where the most recent binding is first.

Field names and function names follow the source where Lean allows it.
Display-only record fields (ad start date, duration, order type/status,
descriptions) that never influence control flow or stored state are omitted;
they only feed the rendered alert text, which the claims do not inspect.
-/

namespace DexBot

/-- A (chain identifier, token address) pair, the identity key used
throughout the bot. -/
abbrev Key := String × String

/-- Python truthiness of an optional string: `None` and `""` are falsy. -/
def truthy : Option String → Bool
  | none => false
  | some s => !s.isEmpty

/-- Lookup in an association list with a default, modelling
`dict.get(k, d)`. -/
def lookupD {α : Type} (m : List (String × α)) (k : String) (d : α) : α :=
  match m.lookup k with
  | some v => v
  | none => d

/-- Write a binding into an association list, modelling `dict[k] = v`;
the new binding shadows any older one. -/
def setVal {α : Type} (m : List (String × α)) (k : String) (v : α) :
    List (String × α) :=
  (k, v) :: m

/-- Lookup for `Key`-indexed association lists (the profile caches). -/
def lookupK {α : Type} (m : List (Key × α)) (k : Key) : Option α :=
  m.lookup k

/-- Write for `Key`-indexed association lists. -/
def setK {α : Type} (m : List (Key × α)) (k : Key) (v : α) :
    List (Key × α) :=
  (k, v) :: m

/-- Python `set.add`: insert a key if absent, keep the set unchanged otherwise. -/
def insertTok (s : List Key) (k : Key) : List Key :=
  if k ∈ s then s else k :: s

/-- The bot's memory-resident state: the seen-sets and maps declared at
module level in the source, together with the `stats` counters the claims
reference. `stats` in the source has keys `polls`, `ads_detected`,
`boosts_detected`, `orders_detected`, `errors` — there is no
profile-specific counter. -/
structure BotState where
  seen_ads : List Key
  seen_boosts : List (String × ℚ)
  seen_orders : List (String × Int)
  seen_profiles : List Key
  profile_headers : List (Key × String)
  profile_socials : List (Key × List String)
  known_tokens : List Key
  polls : Nat
  ads_detected : Nat
  boosts_detected : Nat
  orders_detected : Nat
  errors : Nat
deriving Repr, DecidableEq

/-- The state at process start: every set and map empty, counters zero. -/
def initState : BotState :=
  ⟨[], [], [], [], [], [], [], 0, 0, 0, 0, 0⟩

/-- One record of the ads feed (`/ads/latest/v1`). -/
structure AdRec where
  chainId : Option String
  tokenAddress : Option String
deriving Repr, DecidableEq

/-- One record of the profiles feed (`/token-profiles/latest/v1`).
`links` is `none` when the field is absent; social links are kept opaque
as strings. -/
structure ProfileRec where
  chainId : Option String
  tokenAddress : Option String
  openGraph : Option String
  header : Option String
  icon : Option String
  links : Option (List String)
deriving Repr, DecidableEq

/-- One record of the boosts feed (`/token-boosts/latest/v1`).
`totalAmount` is a JSON number, modelled as a rational. -/
structure BoostRec where
  chainId : Option String
  tokenAddress : Option String
  totalAmount : Option ℚ
deriving Repr, DecidableEq

/-- One order record from `/orders/v1/{chain}/{token}`.
`paymentTimestamp` is milliseconds since epoch; the source reads it with
`order.get("paymentTimestamp", 0)`. -/
structure OrderRec where
  paymentTimestamp : Option Int
deriving Repr, DecidableEq

/-- The domain events the bot emits (one `print_alert` call each).
Boost events carry the previously stored total and the new total; order
events carry the previously stored timestamp and the new timestamp, so the
delta reported in the alert is determined by the event. -/
inductive Event where
  | ad : Key → Event
  | profileEvt : Key → Event
  | boost : Key → ℚ → ℚ → Event
  | order : Key → Int → Int → Event
deriving Repr, DecidableEq

/-- The loop shape shared by all four detection procedures: fold a
per-record step over the fetched list, threading the state and collecting
the emitted events after those already accumulated. -/
def stepFold {ρ : Type} (f : BotState → ρ → BotState × Option Event)
    (acc : BotState × List Event) (l : List ρ) : BotState × List Event :=
  l.foldl (fun a x => ((f a.1 x).1, a.2 ++ (f a.1 x).2.toList)) acc

/-- One iteration of the loop body of `process_ads` (source lines
377-412): records missing identity are skipped; the identity is added to
`known_tokens` unconditionally; an AD event fires iff the key is not in
`seen_ads`, and then the key is added and the counter bumped. -/
def process_ad_step (s : BotState) (ad : AdRec) : BotState × Option Event :=
  if truthy ad.chainId && truthy ad.tokenAddress then
    let chain_id := ad.chainId.getD ""
    let token_address := ad.tokenAddress.getD ""
    let key : Key := (chain_id, token_address)
    let s := { s with known_tokens := insertTok s.known_tokens key }
    if key ∈ s.seen_ads then (s, none)
    else
      ({ s with seen_ads := key :: s.seen_ads,
                ads_detected := s.ads_detected + 1 },
       some (Event.ad key))
  else (s, none)

/-- The whole of `process_ads` over a fetched list, collecting emitted events. -/
def process_ads (s : BotState) (ads : List AdRec) : BotState × List Event :=
  stepFold process_ad_step (s, []) ads

/-- The image the bot caches for a profile record: `openGraph`, else
`header`, else `icon` (source lines 436-442), each gated on Python
truthiness. -/
def bestImage (p : ProfileRec) : Option String :=
  if truthy p.openGraph then p.openGraph
  else if truthy p.header then p.header
  else if truthy p.icon then p.icon
  else none

/-- The metadata refresh of `process_profiles` (source lines 434-449):
the best available image is stored when the record carries one; the
social links are stored when the record carries a non-empty list (Python
truthiness of `profile.get("links")`). -/
def storeProfileMeta (key : Key) (p : ProfileRec) (s : BotState) : BotState :=
  let s1 : BotState :=
    match bestImage p with
    | some img => { s with profile_headers := setK s.profile_headers key img }
    | none => s
  match p.links with
  | some ls =>
      if ls.isEmpty then s1
      else { s1 with profile_socials := setK s1.profile_socials key ls }
  | none => s1

/-- One iteration of the loop body of `process_profiles` (source lines
422-477): identity registered unconditionally; metadata refreshed; a
PROFILE event fires iff the key is not in `seen_profiles`. Note the
source bumps `stats["orders_detected"]` for a new profile. -/
def process_profile_step (s : BotState) (p : ProfileRec) :
    BotState × Option Event :=
  if truthy p.chainId && truthy p.tokenAddress then
    let chain_id := p.chainId.getD ""
    let token_address := p.tokenAddress.getD ""
    let key : Key := (chain_id, token_address)
    let s := { s with known_tokens := insertTok s.known_tokens key }
    let s : BotState := storeProfileMeta key p s
    if key ∈ s.seen_profiles then (s, none)
    else
      ({ s with seen_profiles := key :: s.seen_profiles,
                orders_detected := s.orders_detected + 1 },
       some (Event.profileEvt key))
  else (s, none)

/-- The whole of `process_profiles` over a fetched list. -/
def process_profiles (s : BotState) (ps : List ProfileRec) :
    BotState × List Event :=
  stepFold process_profile_step (s, []) ps

/-- One iteration of the loop body of `process_boosts` (source lines
487-527): a record missing chain, token, or `totalAmount` is skipped
entirely (before the `known_tokens` registration); otherwise the identity
is registered, and a BOOST event fires iff the new total strictly exceeds
the stored total for the token address (default 0), in which case the
stored total becomes the new total. `seen_boosts` is keyed by token
address alone. -/
def process_boost_step (s : BotState) (b : BoostRec) :
    BotState × Option Event :=
  match b.totalAmount with
  | none => (s, none)
  | some total_amount =>
    if truthy b.chainId && truthy b.tokenAddress then
      let chain_id := b.chainId.getD ""
      let token_address := b.tokenAddress.getD ""
      let key : Key := (chain_id, token_address)
      let s := { s with known_tokens := insertTok s.known_tokens key }
      let previous_amount := lookupD s.seen_boosts token_address 0
      if total_amount ≤ previous_amount then (s, none)
      else
        ({ s with
            seen_boosts := setVal s.seen_boosts token_address total_amount,
            boosts_detected := s.boosts_detected + 1 },
         some (Event.boost key previous_amount total_amount))
    else (s, none)

/-- The whole of `process_boosts` over a fetched list. -/
def process_boosts (s : BotState) (bs : List BoostRec) :
    BotState × List Event :=
  stepFold process_boost_step (s, []) bs

/-- One iteration of the inner order loop of `check_orders` (source lines
549-590): orders paid strictly before bot start are skipped; an ORDER
event fires iff the timestamp strictly exceeds the stored last-seen
timestamp for the token address (default 0), which is then updated. -/
def check_order_step (bot_start_ms : Int) (key : Key) (s : BotState)
    (o : OrderRec) : BotState × Option Event :=
  let payment_timestamp := o.paymentTimestamp.getD 0
  if payment_timestamp < bot_start_ms then (s, none)
  else
    let last_seen := lookupD s.seen_orders key.2 0
    if last_seen < payment_timestamp then
      ({ s with
          seen_orders := setVal s.seen_orders key.2 payment_timestamp,
          orders_detected := s.orders_detected + 1 },
       some (Event.order key last_seen payment_timestamp))
    else (s, none)

/-- The orders returned for one known token: `none` models a failed fetch
or falsy response (`if not data: continue`); `some l` models a response
whose `"orders"` field is `l`. -/
abbrev OrderFeed := Key → Option (List OrderRec)

/-- The per-token body of `check_orders`: a failed or falsy fetch is
skipped, otherwise the per-order step runs over the token's order list. -/
def ordersFold (bot_start_ms : Int) (feed : OrderFeed)
    (acc : BotState × List Event) (keys : List Key) : BotState × List Event :=
  keys.foldl
    (fun a key =>
      match feed key with
      | none => a
      | some orders => stepFold (check_order_step bot_start_ms key) a orders)
    acc

/-- The function `check_orders` (source lines 530-590): iterate a snapshot of
`known_tokens`, fetch each token's orders, and run the per-order check. -/
def check_orders (bot_start_ms : Int) (feed : OrderFeed) (s : BotState) :
    BotState × List Event :=
  ordersFold bot_start_ms feed (s, []) s.known_tokens

/-! ### Fetcher (`fetch_json`, source lines 70-78)

The HTTP layer is modelled by an oracle describing what the transport did:
either an exception was raised, or a response with a status code arrived
whose body parses as a value of type `α` (`some`) or fails to parse
(`none`, making `response.json()` raise). `fetch_json` threads the
`stats["errors"]` counter explicitly. -/

/-- Outcome of the underlying `requests.get` call. -/
inductive HttpResult (α : Type) where
  | exc : HttpResult α
  | response : Nat → Option α → HttpResult α
deriving Repr, DecidableEq

/-- The fetcher `fetch_json`: a transport exception is caught, bumps the error
counter, and yields `none`; a non-200 response yields `none` inside the
`try` block without touching the counter; a 200 response whose body fails
to parse raises inside the `try`, bumping the counter; otherwise the
parsed value is returned. The function is total: it never raises. -/
def fetch_json {α : Type} (r : HttpResult α) (errors : Nat) :
    Option α × Nat :=
  match r with
  | HttpResult.exc => (none, errors + 1)
  | HttpResult.response status body =>
      if status ≠ 200 then (none, errors)
      else
        match body with
        | none => (none, errors + 1)
        | some v => (some v, errors)

/-- How every caller guards a fetched list (`if ads:`, `if not data:`):
Python truthiness of `None` and of a list. -/
def fetchedTruthy {α : Type} : Option (List α) → Bool
  | none => false
  | some l => !l.isEmpty

/-! ### Price formatting (`format_price`, source lines 98-105)

`format_price` applies `float(price)`; a non-numeric input raises and
yields `"N/A"`. A numeric input is modelled as a rational. `f"{p:,.2f}"`
and `f"{p:.8f}"` round to a fixed number of decimals with round-half-even
(Python float formatting semantics) and render with comma grouping of the
integer part in the first case. The scaling is computed on `num`/`den`
with integer arithmetic. -/

/-- Round `p * scale` to the nearest integer, ties to even
(the rounding used by Python's fixed-point float formatting). -/
def scaledRound (p : ℚ) (scale : ℤ) : ℤ :=
  let N : ℤ := p.num * scale
  let D : ℤ := (p.den : ℤ)
  let q := Int.fdiv N D
  let r := N - q * D
  if 2 * r < D then q
  else if D < 2 * r then q + 1
  else if q % 2 = 0 then q else q + 1

/-- Split a digit string into groups of three from the right. -/
def chunk3 : List Char → List (List Char)
  | [] => []
  | a :: b :: c :: rest => [a, b, c] :: chunk3 rest
  | l => [l]

/-- Insert comma thousands separators into a digit string, as `{:,}`
does for the integer part. -/
def group3 (s : String) : String :=
  String.mk ((List.intersperse [','] (chunk3 s.toList.reverse)).flatten.reverse)

/-- Left-pad a string with zeros to length `k`. -/
def padZeros (k : Nat) (s : String) : String :=
  String.mk (List.replicate (k - s.length) '0') ++ s

/-- Render an integer `v` that stands for a fixed-point number with
`decimals` decimal digits; `grouped` adds thousands separators to the
integer part. -/
def renderFixed (decimals : Nat) (grouped : Bool) (v : ℤ) : String :=
  let a := v.natAbs
  let ip := a / 10 ^ decimals
  let fp := a % 10 ^ decimals
  let ipStr := if grouped then group3 (toString ip) else toString ip
  (if v < 0 then "-" else "") ++ ipStr ++ "." ++ padZeros decimals (toString fp)

/-- Python `str.rstrip("0")`. -/
def rstripZeros (s : String) : String :=
  String.mk (s.toList.reverse.dropWhile (fun c => c = '0')).reverse

/-- Python `str.rstrip(".")`. -/
def rstripDot (s : String) : String :=
  String.mk (s.toList.reverse.dropWhile (fun c => c = '.')).reverse

/-- The formatter `format_price`: `none` models an input on which `float()` raises.
`p >= 1` renders `f"{p:,.2f}"`; otherwise `f"{p:.8f}"` with trailing
zeros, then a trailing dot, stripped. Total: never raises. -/
def format_price (price : Option ℚ) : String :=
  match price with
  | none => "N/A"
  | some p =>
      if 1 ≤ p then renderFixed 2 true (scaledRound p 100)
      else rstripDot (rstripZeros (renderFixed 8 false (scaledRound p (10 ^ 8))))

/-! ### Alert image selection (`format_telegram_alert`, source lines
260-277)

The source initialises `image_url = None`, overwrites it with the cached
header image when present, then — whenever it is still falsy — with the
chart URL (a non-empty string including width/height query parameters),
then — whenever it is *still* falsy — with the thumbnail URL. Each step
is embedded separately so the dead third step can be reasoned about. -/

/-- The generated chart URL with explicit size parameters. -/
def chart_url (chain_id token_address : String) : String :=
  "https://api.dexscreener.com/token-chart-img/" ++ chain_id ++ "/"
    ++ token_address ++ "?w=800&h=450"

/-- The low-resolution thumbnail URL. -/
def thumb_url (chain_id token_address : String) : String :=
  "https://dd.dexscreener.com/ds-data/tokens/" ++ chain_id ++ "/"
    ++ token_address ++ ".png"

/-- Step 1: take the cached header image when truthy. -/
def imageStep1 (header_image : Option String) : Option String :=
  if truthy header_image then header_image else none

/-- Step 2: when still falsy, construct the chart URL. -/
def imageStep2 (chain_id token_address : String) (u : Option String) :
    Option String :=
  match u with
  | none => some (chart_url chain_id token_address)
  | some s => if s.isEmpty then some (chart_url chain_id token_address) else some s

/-- Step 3: when still falsy, fall back to the thumbnail URL. -/
def imageStep3 (chain_id token_address : String) (u : Option String) :
    Option String :=
  match u with
  | none => some (thumb_url chain_id token_address)
  | some s => if s.isEmpty then some (thumb_url chain_id token_address) else some s

/-- The image URL `format_telegram_alert` returns alongside the caption. -/
def select_image (header_image : Option String)
    (chain_id token_address : String) : Option String :=
  imageStep3 chain_id token_address
    (imageStep2 chain_id token_address (imageStep1 header_image))

/-! ### Telegram delivery (`send_telegram_photo`, `send_telegram_message`,
and the delivery tail of `print_alert`, source lines 115-163 and 363-367)

The HTTP outcomes of the successive `sendMessage` calls are modelled as a
queue of booleans (`true` = status 200); the photo call's outcome is a
separate oracle. `DeliveryState` counts the attempts actually made on the
wire so the fallback discipline can be stated. -/

/-- Outcome of the `sendPhoto` HTTP call. -/
inductive PhotoResult where
  | ok : PhotoResult
  | httpFail : PhotoResult
  | exc : PhotoResult
deriving Repr, DecidableEq

/-- Delivery-side state: the queued outcomes of future `sendMessage`
calls, and counters of attempts made. -/
structure DeliveryState where
  textOutcomes : List Bool
  textAttempts : Nat
  photoAttempts : Nat
deriving Repr, DecidableEq

/-- The sender `send_telegram_message`: without configuration it returns `False`
making no call; otherwise one HTTP text send is attempted and its
outcome returned (failures are logged and swallowed). -/
def send_telegram_message (use_telegram : Bool) (d : DeliveryState) :
    Bool × DeliveryState :=
  if !use_telegram then (false, d)
  else
    match d.textOutcomes with
    | [] => (false, { d with textAttempts := d.textAttempts + 1 })
    | r :: rest =>
        (r, { d with textOutcomes := rest, textAttempts := d.textAttempts + 1 })

/-- The sender `send_telegram_photo`: without configuration, `False` and no call;
otherwise one photo send is attempted; on a non-200 response or an
exception it falls back to `send_telegram_message` with the same caption
and returns that result. -/
def send_telegram_photo (use_telegram : Bool) (photo : PhotoResult)
    (d : DeliveryState) : Bool × DeliveryState :=
  if !use_telegram then (false, d)
  else
    let d := { d with photoAttempts := d.photoAttempts + 1 }
    match photo with
    | PhotoResult.ok => (true, d)
    | PhotoResult.httpFail => send_telegram_message use_telegram d
    | PhotoResult.exc => send_telegram_message use_telegram d

/-- The delivery tail of `print_alert`: when Telegram is configured it
tries the photo send, and when that returns `False` it sends the caption
as text. -/
def deliver_alert (use_telegram : Bool) (photo : PhotoResult)
    (d : DeliveryState) : DeliveryState :=
  if !use_telegram then d
  else
    let r := send_telegram_photo use_telegram photo d
    if r.1 then r.2 else (send_telegram_message use_telegram r.2).2

/-! ### Driver loop (`main`, source lines 760-790)

One cycle: bump the poll counter, fetch the three feeds through
`fetch_json` (threading the error counter), run each detector when its
fetch result is truthy, and on every fifth poll run the order checker.
The command listener and console status line touch no detection state and
are not modelled. -/

/-- The inputs one loop iteration consumes from the outside world. -/
structure CycleInput where
  adsHttp : HttpResult (List AdRec)
  profilesHttp : HttpResult (List ProfileRec)
  boostsHttp : HttpResult (List BoostRec)
  orderFeed : OrderFeed

/-- One iteration of the driver loop's body. -/
def runCycle (bot_start_ms : Int) (c : CycleInput) (s : BotState) :
    BotState × List Event :=
  let s : BotState := { s with polls := s.polls + 1 }
  let fa := fetch_json c.adsHttp s.errors
  let s : BotState := { s with errors := fa.2 }
  let fp := fetch_json c.profilesHttp s.errors
  let s : BotState := { s with errors := fp.2 }
  let fb := fetch_json c.boostsHttp s.errors
  let s : BotState := { s with errors := fb.2 }
  let r1 := if fetchedTruthy fa.1 then process_ads s (fa.1.getD []) else (s, [])
  let r2 :=
    if fetchedTruthy fp.1 then process_profiles r1.1 (fp.1.getD []) else (r1.1, [])
  let r3 :=
    if fetchedTruthy fb.1 then process_boosts r2.1 (fb.1.getD []) else (r2.1, [])
  let r4 :=
    if r3.1.polls % 5 = 0 then check_orders bot_start_ms c.orderFeed r3.1
    else (r3.1, [])
  (r4.1, r1.2 ++ r2.2 ++ r3.2 ++ r4.2)

/-- Folding the loop body over cycle inputs from an accumulator. -/
def cyclesFold (bot_start_ms : Int) (acc : BotState × List Event)
    (cs : List CycleInput) : BotState × List Event :=
  cs.foldl (fun a c => ((runCycle bot_start_ms c a.1).1,
                        a.2 ++ (runCycle bot_start_ms c a.1).2)) acc

/-- A whole run: fold the loop body over a list of cycle inputs. -/
def runCycles (bot_start_ms : Int) (cs : List CycleInput) (s : BotState) :
    BotState × List Event :=
  cyclesFold bot_start_ms (s, []) cs

/-- Recogniser for AD events. -/
def Event.isAd : Event → Bool
  | Event.ad _ => true
  | _ => false

/-- Recogniser for PROFILE events. -/
def Event.isProfileEvt : Event → Bool
  | Event.profileEvt _ => true
  | _ => false

/-- Recogniser for BOOST events. -/
def Event.isBoost : Event → Bool
  | Event.boost _ _ _ => true
  | _ => false

/-- Recogniser for ORDER events. -/
def Event.isOrder : Event → Bool
  | Event.order _ _ _ => true
  | _ => false

/-! ### Concrete scenario runs used by the claims' testable properties -/

/-- A boost record for one fixed token with the given running total. -/
def demoBoost (q : ℚ) : BoostRec :=
  ⟨some "solana", some "TOKEN1", some q⟩

/-- Feeding the boost total sequence [5, 5, 12, 12, 20] for one token
across five cycles, starting from the fresh state. -/
def boostDemoRun : BotState × List Event :=
  [(5 : ℚ), 5, 12, 12, 20].foldl
    (fun a q => ((process_boosts a.1 [demoBoost q]).1,
                 a.2 ++ (process_boosts a.1 [demoBoost q]).2))
    (initState, [])

/-- Two order-check passes for one known token: first an order paid at
1500, then an order paid at 2000, with the bot started at time 1000. -/
def orderDemoRun : BotState × List Event :=
  let s0 : BotState := { initState with known_tokens := [("solana", "TOKEN1")] }
  let r1 := check_orders 1000 (fun _ => some [⟨some 1500⟩]) s0
  let r2 := check_orders 1000 (fun _ => some [⟨some 2000⟩]) r1.1
  (r2.1, r1.2 ++ r2.2)

/-- One order paid strictly before the bot start time, checked twice. -/
def earlyOrderDemoRun : BotState × List Event :=
  let s0 : BotState := { initState with known_tokens := [("solana", "TOKEN1")] }
  let r1 := check_orders 1000 (fun _ => some [⟨some 999⟩]) s0
  let r2 := check_orders 1000 (fun _ => some [⟨some 999⟩]) r1.1
  (r2.1, r1.2 ++ r2.2)

/-- A profile carrying only an `openGraph` image. -/
def demoProfile1 : ProfileRec :=
  ⟨some "solana", some "TOKEN1", some "https://img/H1.png", none, none, none⟩

/-- The same token's profile observed again with a different image. -/
def demoProfile2 : ProfileRec :=
  ⟨some "solana", some "TOKEN1", some "https://img/H2.png", none, none, none⟩

/-- The same token's profile observed with no image fields at all. -/
def demoProfileBare : ProfileRec :=
  ⟨some "solana", some "TOKEN1", none, none, none, none⟩

/-- A profile carrying an `openGraph` image and a social link. -/
def demoProfileFull : ProfileRec :=
  ⟨some "solana", some "TOKEN1", some "https://img/H1.png", none, none,
   some ["https://x.com/token1"]⟩

/-! ## Helper lemmas -/

theorem lookupD_setVal {α : Type} (m : List (String × α)) (k : String)
    (v d : α) : lookupD (setVal m k v) k d = v := by
  simp [lookupD, setVal, List.lookup]

theorem lookupK_setK {α : Type} (m : List (Key × α)) (k : Key) (v : α) :
    lookupK (setK m k v) k = some v := by
  simp [lookupK, setK, List.lookup]

theorem mem_insertTok_self (s : List Key) (k : Key) : k ∈ insertTok s k := by
  unfold insertTok; split <;> simp_all

theorem mem_insertTok_of_mem (s : List Key) (k x : Key) (h : x ∈ s) :
    x ∈ insertTok s k := by
  unfold insertTok; split <;> simp_all

theorem truthy_of_ne (c : String) (h : c ≠ "") : truthy (some c) = true := by
  have : c.isEmpty = false := by
    cases he : c.isEmpty
    · rfl
    · exact absurd ((String.isEmpty_iff c).mp he) h
  simp [truthy, this]

theorem stepFold_nil {ρ : Type} (f : BotState → ρ → BotState × Option Event)
    (acc : BotState × List Event) : stepFold f acc [] = acc := rfl

theorem stepFold_cons {ρ : Type} (f : BotState → ρ → BotState × Option Event)
    (acc : BotState × List Event) (x : ρ) (l : List ρ) :
    stepFold f acc (x :: l)
      = stepFold f ((f acc.1 x).1, acc.2 ++ (f acc.1 x).2.toList) l := rfl

/-- Generic counter bookkeeping for the shared fold: if one step changes
the counter `g` by exactly the number of emitted events satisfying `w`,
so does the whole fold. -/
theorem stepFold_count {ρ : Type} (f : BotState → ρ → BotState × Option Event)
    (g : BotState → Nat) (w : Event → Bool)
    (hf : ∀ s x, g (f s x).1 = g s + List.countP w (f s x).2.toList) :
    ∀ (l : List ρ) (acc : BotState × List Event),
      g (stepFold f acc l).1 + List.countP w acc.2
        = g acc.1 + List.countP w (stepFold f acc l).2 := by
  intro l
  induction l with
  | nil => intro acc; rfl
  | cons x xs ih =>
      intro acc
      rw [stepFold_cons]
      have h1 := ih ((f acc.1 x).1, acc.2 ++ (f acc.1 x).2.toList)
      have h2 := hf acc.1 x
      simp only [List.countP_append] at h1
      omega

@[simp] theorem storeProfileMeta_seen_profiles (key : Key) (p : ProfileRec)
    (s : BotState) : (storeProfileMeta key p s).seen_profiles = s.seen_profiles := by
  simp only [storeProfileMeta]
  split <;> split <;> simp_all <;> split <;> simp_all

@[simp] theorem storeProfileMeta_known_tokens (key : Key) (p : ProfileRec)
    (s : BotState) : (storeProfileMeta key p s).known_tokens = s.known_tokens := by
  simp only [storeProfileMeta]
  split <;> split <;> simp_all <;> split <;> simp_all

@[simp] theorem storeProfileMeta_seen_ads (key : Key) (p : ProfileRec)
    (s : BotState) : (storeProfileMeta key p s).seen_ads = s.seen_ads := by
  simp only [storeProfileMeta]
  split <;> split <;> simp_all <;> split <;> simp_all

@[simp] theorem storeProfileMeta_seen_boosts (key : Key) (p : ProfileRec)
    (s : BotState) : (storeProfileMeta key p s).seen_boosts = s.seen_boosts := by
  simp only [storeProfileMeta]
  split <;> split <;> simp_all <;> split <;> simp_all

@[simp] theorem storeProfileMeta_seen_orders (key : Key) (p : ProfileRec)
    (s : BotState) : (storeProfileMeta key p s).seen_orders = s.seen_orders := by
  simp only [storeProfileMeta]
  split <;> split <;> simp_all <;> split <;> simp_all

@[simp] theorem storeProfileMeta_ads_detected (key : Key) (p : ProfileRec)
    (s : BotState) : (storeProfileMeta key p s).ads_detected = s.ads_detected := by
  simp only [storeProfileMeta]
  split <;> split <;> simp_all <;> split <;> simp_all

@[simp] theorem storeProfileMeta_boosts_detected (key : Key) (p : ProfileRec)
    (s : BotState) :
    (storeProfileMeta key p s).boosts_detected = s.boosts_detected := by
  simp only [storeProfileMeta]
  split <;> split <;> simp_all <;> split <;> simp_all

@[simp] theorem storeProfileMeta_orders_detected (key : Key) (p : ProfileRec)
    (s : BotState) :
    (storeProfileMeta key p s).orders_detected = s.orders_detected := by
  simp only [storeProfileMeta]
  split <;> split <;> simp_all <;> split <;> simp_all

@[simp] theorem storeProfileMeta_polls (key : Key) (p : ProfileRec)
    (s : BotState) : (storeProfileMeta key p s).polls = s.polls := by
  simp only [storeProfileMeta]
  split <;> split <;> simp_all <;> split <;> simp_all

@[simp] theorem storeProfileMeta_errors (key : Key) (p : ProfileRec)
    (s : BotState) : (storeProfileMeta key p s).errors = s.errors := by
  simp only [storeProfileMeta]
  split <;> split <;> simp_all <;> split <;> simp_all

theorem ad_step_count_ads (s : BotState) (a : AdRec) :
    (process_ad_step s a).1.ads_detected
      = s.ads_detected + List.countP Event.isAd (process_ad_step s a).2.toList := by
  simp only [process_ad_step]
  split
  · split <;> simp [Event.isAd]
  · simp

theorem ad_step_count_boosts (s : BotState) (a : AdRec) :
    (process_ad_step s a).1.boosts_detected
      = s.boosts_detected
        + List.countP Event.isBoost (process_ad_step s a).2.toList := by
  simp only [process_ad_step]
  split
  · split <;> simp [Event.isBoost]
  · simp

theorem ad_step_count_op (s : BotState) (a : AdRec) :
    (process_ad_step s a).1.orders_detected
      = s.orders_detected
        + List.countP (fun e => e.isOrder || e.isProfileEvt)
            (process_ad_step s a).2.toList := by
  simp only [process_ad_step]
  split
  · split <;> simp [Event.isOrder, Event.isProfileEvt]
  · simp

theorem profile_step_count_ads (s : BotState) (p : ProfileRec) :
    (process_profile_step s p).1.ads_detected
      = s.ads_detected
        + List.countP Event.isAd (process_profile_step s p).2.toList := by
  simp only [process_profile_step]
  split
  · split <;> simp [Event.isAd]
  · simp

theorem profile_step_count_boosts (s : BotState) (p : ProfileRec) :
    (process_profile_step s p).1.boosts_detected
      = s.boosts_detected
        + List.countP Event.isBoost (process_profile_step s p).2.toList := by
  simp only [process_profile_step]
  split
  · split <;> simp [Event.isBoost]
  · simp

theorem profile_step_count_op (s : BotState) (p : ProfileRec) :
    (process_profile_step s p).1.orders_detected
      = s.orders_detected
        + List.countP (fun e => e.isOrder || e.isProfileEvt)
            (process_profile_step s p).2.toList := by
  simp only [process_profile_step]
  split
  · split <;> simp [Event.isOrder, Event.isProfileEvt]
  · simp

theorem boost_step_count_ads (s : BotState) (b : BoostRec) :
    (process_boost_step s b).1.ads_detected
      = s.ads_detected
        + List.countP Event.isAd (process_boost_step s b).2.toList := by
  simp only [process_boost_step]
  split
  · simp
  · split
    · split <;> simp [Event.isAd]
    · simp

theorem boost_step_count_boosts (s : BotState) (b : BoostRec) :
    (process_boost_step s b).1.boosts_detected
      = s.boosts_detected
        + List.countP Event.isBoost (process_boost_step s b).2.toList := by
  simp only [process_boost_step]
  split
  · simp
  · split
    · split <;> simp [Event.isBoost]
    · simp

theorem boost_step_count_op (s : BotState) (b : BoostRec) :
    (process_boost_step s b).1.orders_detected
      = s.orders_detected
        + List.countP (fun e => e.isOrder || e.isProfileEvt)
            (process_boost_step s b).2.toList := by
  simp only [process_boost_step]
  split
  · simp
  · split
    · split <;> simp [Event.isOrder, Event.isProfileEvt]
    · simp

theorem order_step_count_ads (start : Int) (key : Key) (s : BotState)
    (o : OrderRec) :
    (check_order_step start key s o).1.ads_detected
      = s.ads_detected
        + List.countP Event.isAd (check_order_step start key s o).2.toList := by
  simp only [check_order_step]
  split
  · simp
  · split <;> simp [Event.isAd]

theorem order_step_count_boosts (start : Int) (key : Key) (s : BotState)
    (o : OrderRec) :
    (check_order_step start key s o).1.boosts_detected
      = s.boosts_detected
        + List.countP Event.isBoost (check_order_step start key s o).2.toList := by
  simp only [check_order_step]
  split
  · simp
  · split <;> simp [Event.isBoost]

theorem order_step_count_op (start : Int) (key : Key) (s : BotState)
    (o : OrderRec) :
    (check_order_step start key s o).1.orders_detected
      = s.orders_detected
        + List.countP (fun e => e.isOrder || e.isProfileEvt)
            (check_order_step start key s o).2.toList := by
  simp only [check_order_step]
  split
  · simp
  · split <;> simp [Event.isOrder, Event.isProfileEvt]

/-- Generic `known_tokens` monotonicity for the shared fold. -/
theorem stepFold_kt {ρ : Type} (f : BotState → ρ → BotState × Option Event)
    (hf : ∀ s x k, k ∈ s.known_tokens → k ∈ (f s x).1.known_tokens) :
    ∀ (l : List ρ) (acc : BotState × List Event) (k : Key),
      k ∈ acc.1.known_tokens → k ∈ (stepFold f acc l).1.known_tokens := by
  intro l
  induction l with
  | nil => intro acc k h; exact h
  | cons x xs ih =>
      intro acc k h
      rw [stepFold_cons]
      exact ih _ k (hf acc.1 x k h)

theorem ordersFold_cons (start : Int) (feed : OrderFeed)
    (acc : BotState × List Event) (key : Key) (ks : List Key) :
    ordersFold start feed acc (key :: ks)
      = ordersFold start feed
          (match feed key with
           | none => acc
           | some orders => stepFold (check_order_step start key) acc orders)
          ks := rfl

/-- Counter bookkeeping for the order checker's outer fold. -/
theorem ordersFold_count (start : Int) (feed : OrderFeed)
    (g : BotState → Nat) (w : Event → Bool)
    (hf : ∀ key s o, g (check_order_step start key s o).1
            = g s + List.countP w (check_order_step start key s o).2.toList) :
    ∀ (keys : List Key) (acc : BotState × List Event),
      g (ordersFold start feed acc keys).1 + List.countP w acc.2
        = g acc.1 + List.countP w (ordersFold start feed acc keys).2 := by
  intro keys
  induction keys with
  | nil => intro acc; rfl
  | cons key ks ih =>
      intro acc
      rw [ordersFold_cons]
      cases hk : feed key with
      | none => simpa using ih acc
      | some orders =>
          have h1 := ih (stepFold (check_order_step start key) acc orders)
          have h2 := stepFold_count (check_order_step start key) g w
            (fun s o => hf key s o) orders acc
          dsimp only
          omega

theorem process_ads_count_ads (s : BotState) (l : List AdRec) :
    (process_ads s l).1.ads_detected
      = s.ads_detected + List.countP Event.isAd (process_ads s l).2 := by
  have h := stepFold_count process_ad_step (fun st => st.ads_detected)
    Event.isAd ad_step_count_ads l (s, [])
  simpa [process_ads] using h

theorem process_ads_count_boosts (s : BotState) (l : List AdRec) :
    (process_ads s l).1.boosts_detected
      = s.boosts_detected + List.countP Event.isBoost (process_ads s l).2 := by
  have h := stepFold_count process_ad_step (fun st => st.boosts_detected)
    Event.isBoost ad_step_count_boosts l (s, [])
  simpa [process_ads] using h

theorem process_ads_count_op (s : BotState) (l : List AdRec) :
    (process_ads s l).1.orders_detected
      = s.orders_detected
        + List.countP (fun e => e.isOrder || e.isProfileEvt) (process_ads s l).2 := by
  have h := stepFold_count process_ad_step (fun st => st.orders_detected)
    (fun e => e.isOrder || e.isProfileEvt) ad_step_count_op l (s, [])
  simpa [process_ads] using h

theorem process_profiles_count_ads (s : BotState) (l : List ProfileRec) :
    (process_profiles s l).1.ads_detected
      = s.ads_detected + List.countP Event.isAd (process_profiles s l).2 := by
  have h := stepFold_count process_profile_step (fun st => st.ads_detected)
    Event.isAd profile_step_count_ads l (s, [])
  simpa [process_profiles] using h

theorem process_profiles_count_boosts (s : BotState) (l : List ProfileRec) :
    (process_profiles s l).1.boosts_detected
      = s.boosts_detected + List.countP Event.isBoost (process_profiles s l).2 := by
  have h := stepFold_count process_profile_step (fun st => st.boosts_detected)
    Event.isBoost profile_step_count_boosts l (s, [])
  simpa [process_profiles] using h

theorem process_profiles_count_op (s : BotState) (l : List ProfileRec) :
    (process_profiles s l).1.orders_detected
      = s.orders_detected
        + List.countP (fun e => e.isOrder || e.isProfileEvt)
            (process_profiles s l).2 := by
  have h := stepFold_count process_profile_step (fun st => st.orders_detected)
    (fun e => e.isOrder || e.isProfileEvt) profile_step_count_op l (s, [])
  simpa [process_profiles] using h

theorem process_boosts_count_ads (s : BotState) (l : List BoostRec) :
    (process_boosts s l).1.ads_detected
      = s.ads_detected + List.countP Event.isAd (process_boosts s l).2 := by
  have h := stepFold_count process_boost_step (fun st => st.ads_detected)
    Event.isAd boost_step_count_ads l (s, [])
  simpa [process_boosts] using h

theorem process_boosts_count_boosts (s : BotState) (l : List BoostRec) :
    (process_boosts s l).1.boosts_detected
      = s.boosts_detected + List.countP Event.isBoost (process_boosts s l).2 := by
  have h := stepFold_count process_boost_step (fun st => st.boosts_detected)
    Event.isBoost boost_step_count_boosts l (s, [])
  simpa [process_boosts] using h

theorem process_boosts_count_op (s : BotState) (l : List BoostRec) :
    (process_boosts s l).1.orders_detected
      = s.orders_detected
        + List.countP (fun e => e.isOrder || e.isProfileEvt)
            (process_boosts s l).2 := by
  have h := stepFold_count process_boost_step (fun st => st.orders_detected)
    (fun e => e.isOrder || e.isProfileEvt) boost_step_count_op l (s, [])
  simpa [process_boosts] using h

theorem check_orders_count_ads (start : Int) (feed : OrderFeed) (s : BotState) :
    (check_orders start feed s).1.ads_detected
      = s.ads_detected + List.countP Event.isAd (check_orders start feed s).2 := by
  have h := ordersFold_count start feed (fun st => st.ads_detected) Event.isAd
    (fun key st o => order_step_count_ads start key st o) s.known_tokens (s, [])
  simpa [check_orders] using h

theorem check_orders_count_boosts (start : Int) (feed : OrderFeed) (s : BotState) :
    (check_orders start feed s).1.boosts_detected
      = s.boosts_detected
        + List.countP Event.isBoost (check_orders start feed s).2 := by
  have h := ordersFold_count start feed (fun st => st.boosts_detected)
    Event.isBoost (fun key st o => order_step_count_boosts start key st o)
    s.known_tokens (s, [])
  simpa [check_orders] using h

theorem check_orders_count_op (start : Int) (feed : OrderFeed) (s : BotState) :
    (check_orders start feed s).1.orders_detected
      = s.orders_detected
        + List.countP (fun e => e.isOrder || e.isProfileEvt)
            (check_orders start feed s).2 := by
  have h := ordersFold_count start feed (fun st => st.orders_detected)
    (fun e => e.isOrder || e.isProfileEvt)
    (fun key st o => order_step_count_op start key st o) s.known_tokens (s, [])
  simpa [check_orders] using h

theorem runCycle_count_ads (start : Int) (c : CycleInput) (s : BotState) :
    (runCycle start c s).1.ads_detected
      = s.ads_detected + List.countP Event.isAd (runCycle start c s).2 := by
  simp only [runCycle]
  split <;> split <;> split <;> split <;>
    simp [List.countP_append, process_ads_count_ads, process_profiles_count_ads,
          process_boosts_count_ads, check_orders_count_ads] <;> omega

theorem runCycle_count_boosts (start : Int) (c : CycleInput) (s : BotState) :
    (runCycle start c s).1.boosts_detected
      = s.boosts_detected + List.countP Event.isBoost (runCycle start c s).2 := by
  simp only [runCycle]
  split <;> split <;> split <;> split <;>
    simp [List.countP_append, process_ads_count_boosts,
          process_profiles_count_boosts, process_boosts_count_boosts,
          check_orders_count_boosts] <;> omega

theorem runCycle_count_op (start : Int) (c : CycleInput) (s : BotState) :
    (runCycle start c s).1.orders_detected
      = s.orders_detected
        + List.countP (fun e => e.isOrder || e.isProfileEvt) (runCycle start c s).2 := by
  simp only [runCycle]
  split <;> split <;> split <;> split <;>
    simp [List.countP_append, process_ads_count_op, process_profiles_count_op,
          process_boosts_count_op, check_orders_count_op] <;> omega

theorem cyclesFold_cons (start : Int) (acc : BotState × List Event)
    (c : CycleInput) (cs : List CycleInput) :
    cyclesFold start acc (c :: cs)
      = cyclesFold start
          ((runCycle start c acc.1).1, acc.2 ++ (runCycle start c acc.1).2)
          cs := rfl

/-- Counter bookkeeping over whole runs. -/
theorem cyclesFold_count (start : Int) (g : BotState → Nat) (w : Event → Bool)
    (h1 : ∀ c s, g (runCycle start c s).1
            = g s + List.countP w (runCycle start c s).2) :
    ∀ (cs : List CycleInput) (acc : BotState × List Event),
      g (cyclesFold start acc cs).1 + List.countP w acc.2
        = g acc.1 + List.countP w (cyclesFold start acc cs).2 := by
  intro cs
  induction cs with
  | nil => intro acc; rfl
  | cons c cs ih =>
      intro acc
      rw [cyclesFold_cons]
      have h2 := ih ((runCycle start c acc.1).1, acc.2 ++ (runCycle start c acc.1).2)
      have h3 := h1 c acc.1
      simp only [List.countP_append] at h2
      omega

theorem ad_step_kt (s : BotState) (a : AdRec) (k : Key)
    (h : k ∈ s.known_tokens) : k ∈ (process_ad_step s a).1.known_tokens := by
  simp only [process_ad_step]
  split
  · split
    · exact mem_insertTok_of_mem _ _ _ h
    · exact mem_insertTok_of_mem _ _ _ h
  · exact h

theorem profile_step_kt (s : BotState) (p : ProfileRec) (k : Key)
    (h : k ∈ s.known_tokens) : k ∈ (process_profile_step s p).1.known_tokens := by
  simp only [process_profile_step]
  split
  · split
    · simpa [storeProfileMeta_known_tokens] using mem_insertTok_of_mem _ _ _ h
    · simpa [storeProfileMeta_known_tokens] using mem_insertTok_of_mem _ _ _ h
  · exact h

theorem boost_step_kt (s : BotState) (b : BoostRec) (k : Key)
    (h : k ∈ s.known_tokens) : k ∈ (process_boost_step s b).1.known_tokens := by
  simp only [process_boost_step]
  split
  · exact h
  · split
    · split
      · exact mem_insertTok_of_mem _ _ _ h
      · exact mem_insertTok_of_mem _ _ _ h
    · exact h

theorem order_step_kt (start : Int) (key : Key) (s : BotState) (o : OrderRec)
    (k : Key) (h : k ∈ s.known_tokens) :
    k ∈ (check_order_step start key s o).1.known_tokens := by
  simp only [check_order_step]
  split
  · exact h
  · split
    · exact h
    · exact h

theorem process_ads_kt (s : BotState) (l : List AdRec) (k : Key)
    (h : k ∈ s.known_tokens) : k ∈ (process_ads s l).1.known_tokens :=
  stepFold_kt process_ad_step ad_step_kt l (s, []) k h

theorem process_profiles_kt (s : BotState) (l : List ProfileRec) (k : Key)
    (h : k ∈ s.known_tokens) : k ∈ (process_profiles s l).1.known_tokens :=
  stepFold_kt process_profile_step profile_step_kt l (s, []) k h

theorem process_boosts_kt (s : BotState) (l : List BoostRec) (k : Key)
    (h : k ∈ s.known_tokens) : k ∈ (process_boosts s l).1.known_tokens :=
  stepFold_kt process_boost_step boost_step_kt l (s, []) k h

theorem ordersFold_kt (start : Int) (feed : OrderFeed) :
    ∀ (keys : List Key) (acc : BotState × List Event) (k : Key),
      k ∈ acc.1.known_tokens → k ∈ (ordersFold start feed acc keys).1.known_tokens := by
  intro keys
  induction keys with
  | nil => intro acc k h; exact h
  | cons key ks ih =>
      intro acc k h
      rw [ordersFold_cons]
      cases hk : feed key with
      | none => exact ih acc k h
      | some orders =>
          exact ih _ k (stepFold_kt (check_order_step start key)
            (fun s o => order_step_kt start key s o) orders acc k h)

theorem check_orders_kt (start : Int) (feed : OrderFeed) (s : BotState)
    (k : Key) (h : k ∈ s.known_tokens) :
    k ∈ (check_orders start feed s).1.known_tokens :=
  ordersFold_kt start feed s.known_tokens (s, []) k h

theorem runCycle_kt (start : Int) (c : CycleInput) (s : BotState) (k : Key)
    (h : k ∈ s.known_tokens) : k ∈ (runCycle start c s).1.known_tokens := by
  simp only [runCycle]
  split <;> split <;> split <;> split <;>
    solve_by_elim [process_ads_kt, process_profiles_kt, process_boosts_kt,
      check_orders_kt]

theorem runCycles_kt (start : Int) (cs : List CycleInput) (s : BotState)
    (k : Key) (h : k ∈ s.known_tokens) :
    k ∈ (runCycles start cs s).1.known_tokens := by
  suffices hs : ∀ (cs : List CycleInput) (acc : BotState × List Event),
      k ∈ acc.1.known_tokens → k ∈ (cyclesFold start acc cs).1.known_tokens by
    exact hs cs (s, []) h
  intro cs
  induction cs with
  | nil => intro acc hacc; exact hacc
  | cons c cs ih =>
      intro acc hacc
      rw [cyclesFold_cons]
      exact ih _ (runCycle_kt start c acc.1 k hacc)

/-- Characterization of the ad step on a record with valid identity. -/
theorem ad_step_spec (s : BotState) (a : AdRec) (c t : String)
    (hc : a.chainId = some c) (ht : a.tokenAddress = some t)
    (hc2 : c ≠ "") (ht2 : t ≠ "") :
    process_ad_step s a
      = (if (c, t) ∈ s.seen_ads
         then ({ s with known_tokens := insertTok s.known_tokens (c, t) }, none)
         else ({ s with known_tokens := insertTok s.known_tokens (c, t),
                        seen_ads := (c, t) :: s.seen_ads,
                        ads_detected := s.ads_detected + 1 },
               some (Event.ad (c, t)))) := by
  simp only [process_ad_step, hc, ht, Option.getD_some,
    truthy_of_ne c hc2, truthy_of_ne t ht2, Bool.and_self, if_true]

/-- Characterization of the profile step on a record with valid identity. -/
theorem profile_step_spec (s : BotState) (p : ProfileRec) (c t : String)
    (hc : p.chainId = some c) (ht : p.tokenAddress = some t)
    (hc2 : c ≠ "") (ht2 : t ≠ "") :
    process_profile_step s p
      = (if (c, t) ∈ s.seen_profiles
         then (storeProfileMeta (c, t) p
                 { s with known_tokens := insertTok s.known_tokens (c, t) }, none)
         else
           (let s1 := storeProfileMeta (c, t) p
                 { s with known_tokens := insertTok s.known_tokens (c, t) }
            ({ s1 with seen_profiles := (c, t) :: s1.seen_profiles,
                       orders_detected := s1.orders_detected + 1 },
             some (Event.profileEvt (c, t))))) := by
  simp only [process_profile_step, hc, ht, Option.getD_some,
    truthy_of_ne c hc2, truthy_of_ne t ht2, Bool.and_self, if_true,
    storeProfileMeta_seen_profiles]

/-- Characterization of the boost step on a record with valid identity
and present total. -/
theorem boost_step_spec (s : BotState) (b : BoostRec) (c t : String) (q : ℚ)
    (hc : b.chainId = some c) (ht : b.tokenAddress = some t)
    (hc2 : c ≠ "") (ht2 : t ≠ "") (hq : b.totalAmount = some q) :
    process_boost_step s b
      = (if q ≤ lookupD s.seen_boosts t 0
         then ({ s with known_tokens := insertTok s.known_tokens (c, t) }, none)
         else ({ s with known_tokens := insertTok s.known_tokens (c, t),
                        seen_boosts := setVal s.seen_boosts t q,
                        boosts_detected := s.boosts_detected + 1 },
               some (Event.boost (c, t) (lookupD s.seen_boosts t 0) q))) := by
  simp only [process_boost_step, hc, ht, hq, Option.getD_some,
    truthy_of_ne c hc2, truthy_of_ne t ht2, Bool.and_self, if_true]

/-- Characterization of the per-order step on an order with a present
payment timestamp. -/
theorem order_step_spec (start : Int) (key : Key) (s : BotState) (o : OrderRec)
    (pt : Int) (hpt : o.paymentTimestamp = some pt) :
    check_order_step start key s o
      = (if pt < start then (s, none)
         else if lookupD s.seen_orders key.2 0 < pt
         then ({ s with seen_orders := setVal s.seen_orders key.2 pt,
                        orders_detected := s.orders_detected + 1 },
               some (Event.order key (lookupD s.seen_orders key.2 0) pt))
         else (s, none)) := by
  simp only [check_order_step, hpt, Option.getD_some]

/-! ## Claims -/

/-- C1: for every boost record with valid chain, token address, and total
amount, a BOOST event fires iff the new total strictly exceeds the
previously stored total for that token (default 0 if unseen); the stored
total is then updated to the new total; and over the total sequence
[5, 5, 12, 12, 20] exactly three BOOST events fire — at 5, 12, and 20 —
each carrying the prior stored value (hence the correct delta). -/
theorem claim_C1_boost_fires_iff_increase (s : BotState) (b : BoostRec)
    (c t : String) (q : ℚ)
    (hc : b.chainId = some c) (hc2 : c ≠ "")
    (ht : b.tokenAddress = some t) (ht2 : t ≠ "")
    (hq : b.totalAmount = some q) :
    ((process_boost_step s b).2
       = if lookupD s.seen_boosts t 0 < q
         then some (Event.boost (c, t) (lookupD s.seen_boosts t 0) q)
         else none)
    ∧ (lookupD s.seen_boosts t 0 < q →
        lookupD (process_boost_step s b).1.seen_boosts t 0 = q)
    ∧ (¬ lookupD s.seen_boosts t 0 < q →
        (process_boost_step s b).1.seen_boosts = s.seen_boosts)
    ∧ boostDemoRun.2
        = [Event.boost ("solana", "TOKEN1") 0 5,
           Event.boost ("solana", "TOKEN1") 5 12,
           Event.boost ("solana", "TOKEN1") 12 20] := by
  rw [boost_step_spec s b c t q hc ht hc2 ht2 hq]
  refine ⟨?_, ?_, ?_, by decide⟩
  · split
    · next h => rw [if_neg (not_lt.mpr h)]
    · next h => rw [if_pos (not_le.mp h)]
  · intro h
    rw [if_neg (not_le.mpr h)]
    exact lookupD_setVal s.seen_boosts t q 0
  · intro h
    rw [if_pos (not_lt.mp h)]

/-- Witness for C1 at a concrete input: the fresh state sees total 5 for
an unseen token and fires the event with prior stored value 0. -/
theorem claim_C1_witness :
    (process_boost_step initState (demoBoost 5)).2
      = some (Event.boost ("solana", "TOKEN1") 0 5) := by
  have h := claim_C1_boost_fires_iff_increase initState (demoBoost 5)
    "solana" "TOKEN1" 5 rfl (by decide) rfl (by decide) rfl
  rw [h.1]
  decide

/-- C2: for ad and profile records with a given (chain, token) identity,
an AD or PROFILE event fires on the first occurrence only: when the key is
absent from the seen-set the event fires and the key is added; when it is
present no event fires; and reprocessing the same record immediately
afterwards emits nothing. -/
theorem claim_C2_first_occurrence_only (s : BotState) (a : AdRec)
    (p : ProfileRec) (c t : String)
    (hac : a.chainId = some c) (hat : a.tokenAddress = some t)
    (hpc : p.chainId = some c) (hpt : p.tokenAddress = some t)
    (hc2 : c ≠ "") (ht2 : t ≠ "") :
    (((c, t) ∉ s.seen_ads →
        (process_ad_step s a).2 = some (Event.ad (c, t))
        ∧ (c, t) ∈ (process_ad_step s a).1.seen_ads)
     ∧ ((c, t) ∈ s.seen_ads → (process_ad_step s a).2 = none)
     ∧ (process_ad_step (process_ad_step s a).1 a).2 = none)
    ∧ (((c, t) ∉ s.seen_profiles →
        (process_profile_step s p).2 = some (Event.profileEvt (c, t))
        ∧ (c, t) ∈ (process_profile_step s p).1.seen_profiles)
     ∧ ((c, t) ∈ s.seen_profiles → (process_profile_step s p).2 = none)
     ∧ (process_profile_step (process_profile_step s p).1 p).2 = none) := by
  have hmem : (c, t) ∈ (process_ad_step s a).1.seen_ads := by
    rw [ad_step_spec s a c t hac hat hc2 ht2]
    split <;> simp_all
  have hmemp : (c, t) ∈ (process_profile_step s p).1.seen_profiles := by
    rw [profile_step_spec s p c t hpc hpt hc2 ht2]
    split <;> simp_all
  refine ⟨⟨?_, ?_, ?_⟩, ?_, ?_, ?_⟩
  · intro h
    rw [ad_step_spec s a c t hac hat hc2 ht2, if_neg h]
    exact ⟨rfl, List.mem_cons_self _ _⟩
  · intro h
    rw [ad_step_spec s a c t hac hat hc2 ht2, if_pos h]
  · rw [ad_step_spec (process_ad_step s a).1 a c t hac hat hc2 ht2,
      if_pos hmem]
  · intro h
    rw [profile_step_spec s p c t hpc hpt hc2 ht2, if_neg h]
    exact ⟨rfl, List.mem_cons_self _ _⟩
  · intro h
    rw [profile_step_spec s p c t hpc hpt hc2 ht2, if_pos h]
  · rw [profile_step_spec (process_profile_step s p).1 p c t hpc hpt hc2 ht2,
      if_pos hmemp]

/-- Witness for C2 at a concrete input: a fresh state fires a PROFILE
event for an unseen profile, and reprocessing the same record emits
nothing. -/
theorem claim_C2_witness :
    (process_profile_step initState demoProfile1).2
      = some (Event.profileEvt ("solana", "TOKEN1"))
    ∧ (process_profile_step (process_profile_step initState demoProfile1).1
          demoProfile1).2 = none := by
  have h := claim_C2_first_occurrence_only initState
    ⟨some "solana", some "TOKEN1"⟩ demoProfile1 "solana" "TOKEN1"
    rfl rfl rfl rfl (by decide) (by decide)
  exact ⟨(h.2.1 (by decide)).1, h.2.2.2⟩

/-- C3: an ORDER event fires iff the order's payment timestamp is at or
after the process start time and strictly exceeds the stored last-reported
timestamp for the token (default 0); on firing the stored timestamp is
updated; an order paid strictly before start never fires; and for the
sequence [1500, 2000] with start 1000 exactly two events fire, the second
carrying previous reference 1500. -/
theorem claim_C3_order_fires_iff (start : Int) (key : Key) (s : BotState)
    (o : OrderRec) (pt : Int) (hpt : o.paymentTimestamp = some pt) :
    ((check_order_step start key s o).2
       = if start ≤ pt ∧ lookupD s.seen_orders key.2 0 < pt
         then some (Event.order key (lookupD s.seen_orders key.2 0) pt)
         else none)
    ∧ (start ≤ pt ∧ lookupD s.seen_orders key.2 0 < pt →
        lookupD (check_order_step start key s o).1.seen_orders key.2 0 = pt)
    ∧ (pt < start → check_order_step start key s o = (s, none))
    ∧ orderDemoRun.2
        = [Event.order ("solana", "TOKEN1") 0 1500,
           Event.order ("solana", "TOKEN1") 1500 2000]
    ∧ earlyOrderDemoRun.2 = [] := by
  rw [order_step_spec start key s o pt hpt]
  refine ⟨?_, ?_, ?_, by decide, by decide⟩
  · split
    · rw [if_neg]; omega
    · split
      · rw [if_pos]; constructor <;> omega
      · rw [if_neg]; omega
  · intro h
    rw [if_neg (by omega), if_pos h.2]
    exact lookupD_setVal s.seen_orders key.2 pt 0
  · intro h
    rw [if_pos h]

/-- Witness for C3 at a concrete input: with start time 1000, an order
paid at 1500 for an unseen token fires with previous reference 0. -/
theorem claim_C3_witness :
    (check_order_step 1000 ("solana", "TOKEN1") initState ⟨some 1500⟩).2
      = some (Event.order ("solana", "TOKEN1") 0 1500) := by
  have h := claim_C3_order_fires_iff 1000 ("solana", "TOKEN1") initState
    ⟨some 1500⟩ 1500 rfl
  rw [h.1]
  decide

/-- C5 counterexample: a boost record carrying both a chain identifier
and a token address but no `totalAmount` is skipped before the
`known_tokens` registration, so its identity is NOT added — refuting the
claim that every such record registers its identity. -/
theorem claim_C5_counterexample :
    (⟨some "eth", some "tok", none⟩ : BoostRec).chainId = some "eth"
    ∧ (⟨some "eth", some "tok", none⟩ : BoostRec).tokenAddress = some "tok"
    ∧ (process_boost_step initState
          ⟨some "eth", some "tok", none⟩).1.known_tokens = [] := by
  decide

/-- C5 (amended): ad and profile records with valid identity always
register their (chain, token) pair in the known-token set, independent of
newness; a boost record does so provided its total amount is also
present; and a pair once in the known-token set survives any whole run
of the driver loop. -/
theorem claim_C5_known_tokens_registration (s : BotState) (a : AdRec)
    (p : ProfileRec) (b : BoostRec) (c t : String) (q : ℚ) (start : Int)
    (cs : List CycleInput) (k : Key)
    (hac : a.chainId = some c) (hat : a.tokenAddress = some t)
    (hpc : p.chainId = some c) (hpt : p.tokenAddress = some t)
    (hbc : b.chainId = some c) (hbt : b.tokenAddress = some t)
    (hq : b.totalAmount = some q) (hc2 : c ≠ "") (ht2 : t ≠ "")
    (hk : k ∈ s.known_tokens) :
    (c, t) ∈ (process_ad_step s a).1.known_tokens
    ∧ (c, t) ∈ (process_profile_step s p).1.known_tokens
    ∧ (c, t) ∈ (process_boost_step s b).1.known_tokens
    ∧ k ∈ (runCycles start cs s).1.known_tokens := by
  refine ⟨?_, ?_, ?_, runCycles_kt start cs s k hk⟩
  · rw [ad_step_spec s a c t hac hat hc2 ht2]
    split
    · exact mem_insertTok_self _ _
    · exact mem_insertTok_self _ _
  · rw [profile_step_spec s p c t hpc hpt hc2 ht2]
    split
    · simpa [storeProfileMeta_known_tokens] using
        mem_insertTok_self s.known_tokens (c, t)
    · simpa [storeProfileMeta_known_tokens] using
        mem_insertTok_self s.known_tokens (c, t)
  · rw [boost_step_spec s b c t q hbc hbt hc2 ht2 hq]
    split
    · exact mem_insertTok_self _ _
    · exact mem_insertTok_self _ _

/-- Witness for C5 at concrete inputs: one state, one valid record of
each kind, and survival of a pre-known pair across an empty run. -/
theorem claim_C5_witness :
    ("solana", "TOKEN1")
        ∈ (process_ad_step { initState with known_tokens := [("eth", "USDT")] }
             ⟨some "solana", some "TOKEN1"⟩).1.known_tokens
    ∧ ("solana", "TOKEN1")
        ∈ (process_profile_step
             { initState with known_tokens := [("eth", "USDT")] }
             demoProfile1).1.known_tokens
    ∧ ("solana", "TOKEN1")
        ∈ (process_boost_step
             { initState with known_tokens := [("eth", "USDT")] }
             (demoBoost 5)).1.known_tokens
    ∧ ("eth", "USDT")
        ∈ (runCycles 0 [] { initState with known_tokens := [("eth", "USDT")] }).1.known_tokens :=
  claim_C5_known_tokens_registration
    { initState with known_tokens := [("eth", "USDT")] }
    ⟨some "solana", some "TOKEN1"⟩ demoProfile1 (demoBoost 5)
    "solana" "TOKEN1" 5 0 [] ("eth", "USDT")
    rfl rfl rfl rfl rfl rfl rfl (by decide) (by decide) (by decide)

/-- C10: over any whole run, `ads_detected` counts exactly the AD events
and `boosts_detected` exactly the BOOST events, while `orders_detected`
counts the ORDER events plus the PROFILE events — the source bumps the
shared `orders_detected` counter for new profiles and has no
profile-specific counter. -/
theorem claim_C10_profile_events_share_orders_counter (start : Int)
    (cs : List CycleInput) (s : BotState) :
    (runCycles start cs s).1.ads_detected
      = s.ads_detected + List.countP Event.isAd (runCycles start cs s).2
    ∧ (runCycles start cs s).1.boosts_detected
      = s.boosts_detected + List.countP Event.isBoost (runCycles start cs s).2
    ∧ (runCycles start cs s).1.orders_detected
      = s.orders_detected
        + List.countP (fun e => e.isOrder || e.isProfileEvt)
            (runCycles start cs s).2 := by
  refine ⟨?_, ?_, ?_⟩
  · have h := cyclesFold_count start (fun st => st.ads_detected) Event.isAd
      (runCycle_count_ads start) cs (s, [])
    simpa [runCycles] using h
  · have h := cyclesFold_count start (fun st => st.boosts_detected)
      Event.isBoost (runCycle_count_boosts start) cs (s, [])
    simpa [runCycles] using h
  · have h := cyclesFold_count start (fun st => st.orders_detected)
      (fun e => e.isOrder || e.isProfileEvt) (runCycle_count_op start) cs (s, [])
    simpa [runCycles] using h

/-- C4 counterexample: a non-200 response yields the absent sentinel but
leaves the error counter untouched (it stays 0 here), refuting the claim
that every non-200 response increments the counter — only transport
exceptions and malformed bodies do. -/
theorem claim_C4_counterexample :
    fetch_json (HttpResult.response 500 (some ([] : List AdRec))) 0
      = (none, 0) := by
  decide

/-- C4 (amended): a transport exception or a 200 response with a
malformed body yields `none` and increments the error counter; a non-200
response yields `none` WITHOUT incrementing; a parsed 200 response is
returned as-is; fetching never raises (the function is total); and an
HTTP 500 is indistinguishable downstream from an empty list — both are
falsy to every caller's guard, and processing an empty list changes
nothing. -/
theorem claim_C4_fetch_error_handling {α : Type} (errors : Nat)
    (status : Nat) (body : Option (List α)) (l : List α) (s : BotState)
    (hs : status ≠ 200) :
    fetch_json (HttpResult.exc : HttpResult (List α)) errors
      = (none, errors + 1)
    ∧ fetch_json (HttpResult.response status body) errors = (none, errors)
    ∧ fetch_json (HttpResult.response 200 (none : Option (List α))) errors
        = (none, errors + 1)
    ∧ fetch_json (HttpResult.response 200 (some l)) errors = (some l, errors)
    ∧ fetchedTruthy
        (fetch_json (HttpResult.response 500 (some l)) errors).1 = false
    ∧ fetchedTruthy (some ([] : List α)) = false
    ∧ process_ads s [] = (s, [])
    ∧ process_profiles s [] = (s, [])
    ∧ process_boosts s [] = (s, []) := by
  refine ⟨rfl, ?_, rfl, rfl, ?_, rfl, rfl, rfl, rfl⟩
  · simp [fetch_json, hs]
  · simp [fetch_json, fetchedTruthy]

/-- Witness for C4 at concrete inputs. -/
theorem claim_C4_witness :
    fetch_json (HttpResult.exc : HttpResult (List BoostRec)) 3 = (none, 4)
    ∧ fetch_json (HttpResult.response 500 (some [demoBoost 5])) 3
        = (none, 3)
    ∧ fetchedTruthy
        (fetch_json (HttpResult.response 500 (some [demoBoost 5])) 3).1
        = false := by
  have h := claim_C4_fetch_error_handling (α := BoostRec) 3 500
    (some [demoBoost 5]) [demoBoost 5] initState (by decide)
  exact ⟨h.1, h.2.1, h.2.2.2.2.1⟩

theorem repr_length_le_two : ∀ n : Nat, n < 100 → (Nat.repr n).length ≤ 2 := by
  decide

theorem scaledRound_nonneg (p : ℚ) (hp : 0 ≤ p) (sc : ℤ) (hsc : 0 ≤ sc) :
    0 ≤ scaledRound p sc := by
  simp only [scaledRound]
  have hnum : 0 ≤ p.num := Rat.num_nonneg.mpr hp
  have hden : (0 : ℤ) < (p.den : ℤ) := by exact_mod_cast p.pos
  have hq : 0 ≤ Int.fdiv (p.num * sc) (p.den : ℤ) :=
    Int.fdiv_nonneg (mul_nonneg hnum hsc) (le_of_lt hden)
  split
  · exact hq
  · split
    · omega
    · split
      · exact hq
      · omega

theorem padZeros_length (k : Nat) (s : String) (h : s.length ≤ k) :
    (padZeros k s).length = k := by
  simp only [padZeros]
  rw [String.length_append]
  simp
  omega

/-- The grouped-two-decimal shape of `format_price` on inputs `≥ 1`:
no sign, a comma-grouped integer part, then a dot and exactly two
digits. -/
theorem format_price_ge_one (p : ℚ) (hp : 1 ≤ p) :
    format_price (some p)
      = group3 (toString ((scaledRound p 100).natAbs / 100)) ++ "."
        ++ padZeros 2 (toString ((scaledRound p 100).natAbs % 100))
    ∧ (scaledRound p 100).natAbs % 100 < 100
    ∧ (padZeros 2 (toString ((scaledRound p 100).natAbs % 100))).length = 2 := by
  have h0 : 0 ≤ scaledRound p 100 :=
    scaledRound_nonneg p (le_trans zero_le_one hp) 100 (by norm_num)
  have hlt : (scaledRound p 100).natAbs % 100 < 100 := Nat.mod_lt _ (by norm_num)
  refine ⟨?_, hlt, ?_⟩
  · simp only [format_price, renderFixed]
    rw [if_pos hp, if_neg (not_lt.mpr h0)]
    norm_num
  · exact padZeros_length 2 _ (repr_length_le_two _ hlt)

/-- C6 counterexample: the numeric input 0.000001234 has nine decimal
digits; the 8-decimal fixed-point rendering rounds it to "0.00000123",
not the claimed "0.000001234". -/
theorem claim_C6_counterexample :
    format_price (some (mkRat 1234 1000000000)) = "0.00000123"
    ∧ format_price (some (mkRat 1234 1000000000)) ≠ "0.000001234" := by
  decide

/-- C6 (amended): non-numeric input renders "N/A"; 1234.5 renders
"1,234.50"; 0.000001234 renders "0.00000123" (8-decimal rounding, then
trailing-zero trimming); 0.5 shows the trimming of trailing zeros; and
every input `≥ 1` renders as a comma-grouped integer part followed by
exactly two decimals. The function is total: it never raises. -/
theorem claim_C6_price_formatting (p : ℚ) (hp : 1 ≤ p) :
    format_price none = "N/A"
    ∧ format_price (some (mkRat 12345 10)) = "1,234.50"
    ∧ format_price (some (mkRat 1234 1000000000)) = "0.00000123"
    ∧ format_price (some (mkRat 5 10)) = "0.5"
    ∧ format_price (some p)
        = group3 (toString ((scaledRound p 100).natAbs / 100)) ++ "."
          ++ padZeros 2 (toString ((scaledRound p 100).natAbs % 100))
    ∧ (padZeros 2 (toString ((scaledRound p 100).natAbs % 100))).length = 2 := by
  have h := format_price_ge_one p hp
  exact ⟨rfl, by decide, by decide, by decide, h.1, h.2.2⟩

/-- Witness for C6 at the concrete input 1234.5. -/
theorem claim_C6_witness :
    format_price (some (mkRat 12345 10))
      = group3 (toString ((scaledRound (mkRat 12345 10) 100).natAbs / 100))
        ++ "."
        ++ padZeros 2 (toString ((scaledRound (mkRat 12345 10) 100).natAbs % 100))
    ∧ (padZeros 2
        (toString ((scaledRound (mkRat 12345 10) 100).natAbs % 100))).length
        = 2 := by
  have h := claim_C6_price_formatting (mkRat 12345 10) (by decide)
  exact ⟨h.2.2.2.2.1, h.2.2.2.2.2⟩

theorem storeProfileMeta_headers_of_img (key : Key) (p : ProfileRec)
    (s : BotState) (img : String) (himg : bestImage p = some img) :
    (storeProfileMeta key p s).profile_headers
      = setK s.profile_headers key img := by
  simp only [storeProfileMeta, himg]
  split
  · split <;> rfl
  · rfl

theorem storeProfileMeta_socials_of_links (key : Key) (p : ProfileRec)
    (s : BotState) (ls : List String) (hls : p.links = some ls)
    (hne : ls ≠ []) :
    (storeProfileMeta key p s).profile_socials
      = setK s.profile_socials key ls := by
  have hemp : ls.isEmpty = false := by
    cases ls with
    | nil => exact absurd rfl hne
    | cons a as => rfl
  simp only [storeProfileMeta, hls, hemp]
  split
  · next h => simp at h
  · split <;> rfl

/-- C7 counterexample: a second observation of the same token carrying no
image at all leaves the previously stored header image in place — the
stored value is NOT overwritten with the (absent) value of the most
recent observation. -/
theorem claim_C7_counterexample :
    bestImage demoProfileBare = none
    ∧ lookupK (process_profiles (process_profiles initState [demoProfile1]).1
          [demoProfileBare]).1.profile_headers ("solana", "TOKEN1")
        = some "https://img/H1.png" := by
  decide

/-- C7 (amended): whenever a profile observation carries an image
(openGraph, else header, else icon) the stored header image for its key
is overwritten with it, and whenever it carries a non-empty social-link
list the stored links are overwritten with it — new or already seen; an
observation carrying no image or no links leaves the respective stored
value unchanged. For two observations with different header images the
stored image afterwards is the most recent one. -/
theorem claim_C7_metadata_last_write (s : BotState) (p : ProfileRec)
    (c t img : String) (ls : List String)
    (hc : p.chainId = some c) (ht : p.tokenAddress = some t)
    (hc2 : c ≠ "") (ht2 : t ≠ "")
    (himg : bestImage p = some img) (hls : p.links = some ls)
    (hne : ls ≠ []) :
    lookupK (process_profile_step s p).1.profile_headers (c, t) = some img
    ∧ lookupK (process_profile_step s p).1.profile_socials (c, t) = some ls
    ∧ lookupK (process_profiles (process_profiles initState [demoProfile1]).1
          [demoProfile2]).1.profile_headers ("solana", "TOKEN1")
        = some "https://img/H2.png" := by
  rw [profile_step_spec s p c t hc ht hc2 ht2]
  refine ⟨?_, ?_, by decide⟩
  · split <;>
      simp [storeProfileMeta_headers_of_img _ _ _ _ himg, lookupK_setK]
  · split <;>
      simp [storeProfileMeta_socials_of_links _ _ _ _ hls hne, lookupK_setK]

/-- Witness for C7 at a concrete input: a profile with an image and one
social link stores both, already on a fresh state. -/
theorem claim_C7_witness :
    lookupK (process_profile_step initState demoProfileFull).1.profile_headers
        ("solana", "TOKEN1") = some "https://img/H1.png"
    ∧ lookupK (process_profile_step initState demoProfileFull).1.profile_socials
        ("solana", "TOKEN1") = some ["https://x.com/token1"] := by
  have h := claim_C7_metadata_last_write initState demoProfileFull
    "solana" "TOKEN1" "https://img/H1.png" ["https://x.com/token1"]
    rfl rfl (by decide) (by decide) rfl rfl (by decide)
  exact ⟨h.1, h.2.1⟩

theorem string_length_pos_ne_empty (s : String) (h : 0 < s.length) :
    s.isEmpty = false := by
  cases he : s.isEmpty
  · rfl
  · have := (String.isEmpty_iff s).mp he
    subst this
    simp at h

theorem chart_url_isEmpty_false (c t : String) :
    (chart_url c t).isEmpty = false := by
  apply string_length_pos_ne_empty
  have h44 : ("https://api.dexscreener.com/token-chart-img/" : String).length
      = 44 := rfl
  simp only [chart_url, String.length_append, h44]
  omega

/-- C8: alert image selection returns the cached header image when one is
present (and non-empty), and otherwise the generated chart URL carrying
explicit width/height query parameters — so for every input the selected
image URL is either the cached header image or the chart URL; the
thumbnail step is the identity on the chart step's output — the third
tier is unreachable — and the selected image is never absent. -/
theorem claim_C8_image_selection (header_image : Option String)
    (c t : String) :
    (truthy header_image = true → select_image header_image c t = header_image)
    ∧ (truthy header_image = false →
        select_image header_image c t = some (chart_url c t))
    ∧ (select_image header_image c t = header_image
        ∨ select_image header_image c t = some (chart_url c t))
    ∧ imageStep3 c t (imageStep2 c t (imageStep1 header_image))
        = imageStep2 c t (imageStep1 header_image)
    ∧ (select_image header_image c t).isSome = true
    ∧ chart_url c t
        = "https://api.dexscreener.com/token-chart-img/" ++ c ++ "/" ++ t
          ++ "?w=800&h=450" := by
  have hchart := chart_url_isEmpty_false c t
  cases header_image with
  | none =>
      refine ⟨by simp [truthy], ?_, ?_, ?_, ?_, rfl⟩ <;>
        simp [select_image, imageStep1, imageStep2, imageStep3, truthy, hchart]
  | some str =>
      cases hse : str.isEmpty with
      | true =>
          refine ⟨by simp [truthy, hse], ?_, ?_, ?_, ?_, rfl⟩ <;>
            simp [select_image, imageStep1, imageStep2, imageStep3, truthy,
              hse, hchart]
      | false =>
          refine ⟨?_, by simp [truthy, hse], ?_, ?_, ?_, rfl⟩ <;>
            simp [select_image, imageStep1, imageStep2, imageStep3, truthy,
              hse, hchart]

/-- Witness for C8 at concrete inputs: a cached image wins; without one
the chart URL is selected. -/
theorem claim_C8_witness :
    select_image (some "https://img/H1.png") "solana" "TOKEN1"
      = some "https://img/H1.png"
    ∧ select_image none "solana" "TOKEN1"
      = some (chart_url "solana" "TOKEN1")
    ∧ (select_image none "solana" "TOKEN1" = none
        ∨ select_image none "solana" "TOKEN1"
          = some (chart_url "solana" "TOKEN1")) := by
  have h1 := claim_C8_image_selection (some "https://img/H1.png")
    "solana" "TOKEN1"
  have h2 := claim_C8_image_selection none "solana" "TOKEN1"
  exact ⟨h1.1 (by decide), h2.2.1 (by decide), h2.2.2.1⟩

/-- C9 counterexample: when the photo send fails and the embedded text
fallback also fails, the caller makes a second text attempt — two text
deliveries are attempted for one alert, refuting "never retries beyond
the single fallback attempt". -/
theorem claim_C9_counterexample :
    (deliver_alert true PhotoResult.httpFail
        ⟨[false, true], 0, 0⟩).textAttempts = 2 := by
  decide

/-- C9 (amended): without configuration nothing is sent; a successful
photo send makes no text attempt; on photo failure (non-success response
or exception) a text fallback is attempted — exactly one when it
succeeds, but when it fails the caller retries text once more, so at most
two text attempts are ever made; delivery is total and never raises. -/
theorem claim_C9_delivery_fallback (d : DeliveryState) (photo : PhotoResult)
    (b : Bool) (rest : List Bool) (hq : d.textOutcomes = b :: rest) :
    deliver_alert false photo d = d
    ∧ deliver_alert true PhotoResult.ok d
        = { d with photoAttempts := d.photoAttempts + 1 }
    ∧ (photo ≠ PhotoResult.ok → b = true →
        (deliver_alert true photo d).textAttempts = d.textAttempts + 1)
    ∧ (photo ≠ PhotoResult.ok → b = false →
        (deliver_alert true photo d).textAttempts = d.textAttempts + 2)
    ∧ (deliver_alert true photo d).textAttempts ≤ d.textAttempts + 2 := by
  obtain ⟨queue, ta, pa⟩ := d
  simp only [DeliveryState.mk.injEq] at hq ⊢
  cases photo <;> cases b <;> cases rest <;>
    simp_all [deliver_alert, send_telegram_photo, send_telegram_message]

/-- Witness for C9 at a concrete input: photo failure with a failing text
fallback yields exactly two text attempts. -/
theorem claim_C9_witness :
    (deliver_alert true PhotoResult.exc ⟨[false], 3, 0⟩).textAttempts = 5 := by
  have h := claim_C9_delivery_fallback ⟨[false], 3, 0⟩ PhotoResult.exc
    false [] rfl
  exact h.2.2.2.1 (by decide) rfl

end DexBot
